import Mathlib

/-!
Verification development for the recruitment-platform account/profile slice
(`Platform/models.py`, `Platform/serializers.py`, `Platform/urls.py`).

The relational store is embedded as explicit state (`PState`): a list of
Identity rows (`User`, Django's `auth.User`) and a list of `UserProfile`
rows.  Machine timestamps (`auto_now` / `auto_now_add`) are passed in as an
explicit `Nat` clock argument.  Fallible operations return `Except String`,
the error string being the `ValidationError` detail raised by the source.
-/

/-- Identity row: Django's `auth.User` as used by the source (unique
`username`, `email`, password credential, first/last name, active flag). -/
structure User where
  id : Nat
  username : String
  email : String
  first_name : String
  last_name : String
  passwordHash : String
  is_active : Bool
deriving DecidableEq, Repr

/-- Profile row, from `UserProfile` in `Platform/models.py`.  `user_id` is
the `OneToOneField(User, on_delete=CASCADE)` foreign key; nullable columns
(`blank=True, null=True`) are `Option`s; `resume`/`profile_picture` hold the
stored file reference. -/
structure UserProfile where
  user_id : Nat
  phone_number : Option String
  date_of_birth : Option String
  location : Option String
  bio : Option String
  skills : Option String
  experience_years : Int
  linkedin_url : Option String
  github_url : Option String
  resume : Option String
  profile_picture : Option String
  is_recruiter : Bool
  company : Option String
  created_at : Nat
  updated_at : Nat
deriving DecidableEq, Repr

/-- Store state: the two tables plus the auto-increment counter for
Identity primary keys. -/
structure PState where
  users : List User
  profiles : List UserProfile
  nextId : Nat
deriving DecidableEq, Repr

/-- Modelled from the spec: password hashing internals are out of scope
("delegated to the framework's authentication subsystem"); the model keeps
only that the stored credential is a deterministic hash of the password. -/
def hashPassword (password : String) : String :=
  "pbkdf2:" ++ password

/-- Python's `str.strip()`: drop leading and trailing whitespace. -/
def pyStrip (s : String) : String :=
  ⟨(((s.data.dropWhile Char.isWhitespace).reverse).dropWhile Char.isWhitespace).reverse⟩

/-- Python's string truthiness: a string is truthy iff it is non-empty. -/
def pyTruthy (s : String) : Bool :=
  !s.data.isEmpty

/-- Python's single-character `str.split(sep)` on a character list:
every occurrence of `sep` starts a new chunk, and `"".split(sep)` is
`[""]`. -/
def splitChar (sep : Char) : List Char → List (List Char)
  | [] => [[]]
  | c :: cs =>
    if c == sep then [] :: splitChar sep cs
    else
      match splitChar sep cs with
      | [] => [[c]]
      | g :: gs => (c :: g) :: gs

/-- Python's `str.split(sep)` for a one-character separator. -/
def pySplit (sep : Char) (s : String) : List String :=
  (splitChar sep s.data).map (fun cs => ⟨cs⟩)

/-- Derived value `UserProfile.full_name` (models.py lines 31-33):
`f"{self.user.first_name} {self.user.last_name}".strip()`. -/
def full_name (u : User) : String :=
  pyStrip (u.first_name ++ " " ++ u.last_name)

/-- The spec's wording for `full_name`: "trimmed concatenation of
first+last name". -/
def specFullName (first last : String) : String :=
  pyStrip (first ++ " " ++ last)

/-- Modelled from the spec: the store-side trim applied to incoming string
fields before persistence (framework `CharField` whitespace trimming). -/
def storeTrim (s : String) : String :=
  pyStrip s

/-- Derived value `UserProfile.skills_list` (models.py lines 35-39):
`[skill.strip() for skill in self.skills.split(',') if skill.strip()]`
when `self.skills` is truthy (non-null, non-empty), else `[]`. -/
def skills_list (skills : Option String) : List String :=
  match skills with
  | none => []
  | some s =>
    if pyTruthy s then
      ((pySplit ',' s).filter (fun skill => pyTruthy (pyStrip skill))).map pyStrip
    else []

/-- The spec's wording for `skills_list`: "skills string split on commas,
each entry trimmed, empty entries dropped". -/
def specSkillsList (skills : Option String) : List String :=
  match skills with
  | none => []
  | some s => ((pySplit ',' s).map pyStrip).filter pyTruthy

/-- Default Profile row created by `UserProfile.objects.create(user=instance)`
(models.py): every optional column null, `experience_years` 0,
`is_recruiter` False, both timestamps set to the creation time. -/
def defaultProfileFor (uid t : Nat) : UserProfile :=
  { user_id := uid
    phone_number := none
    date_of_birth := none
    location := none
    bio := none
    skills := none
    experience_years := 0
    linkedin_url := none
    github_url := none
    resume := none
    profile_picture := none
    is_recruiter := false
    company := none
    created_at := t
    updated_at := t }

/-- Signal receiver `create_user_profile` (models.py lines 44-47): on
`post_save` of a `User`, when `created` is true, insert a fresh default
Profile row for that user. -/
def create_user_profile (st : PState) (uid : Nat) (created : Bool) (t : Nat) : PState :=
  if created then
    { st with profiles := st.profiles ++ [defaultProfileFor uid t] }
  else st

/-- Signal receiver `save_user_profile` (models.py lines 50-52): on
`post_save` of a `User`, save `instance.userprofile`; the Profile's
`updated_at` column is `auto_now=True` so the save stamps it with the
current time. -/
def save_user_profile (st : PState) (uid : Nat) (t : Nat) : PState :=
  { st with
    profiles := st.profiles.map (fun p =>
      if p.user_id == uid then { p with updated_at := t } else p) }

/-- Both `post_save` receivers for sender `User`, run in registration order
(`create_user_profile` then `save_user_profile`). -/
def postSaveUser (st : PState) (uid : Nat) (created : Bool) (t : Nat) : PState :=
  save_user_profile (create_user_profile st uid created t) uid t

/-- Registration payload: the writable fields of
`UserRegistrationSerializer` (serializers.py lines 7-14). -/
structure RegPayload where
  username : String
  email : String
  first_name : String
  last_name : String
  password : String
  password_confirm : String
deriving DecidableEq, Repr

/-- Identity row produced by `User.objects.create_user(**validated_data)`
after `password_confirm` was popped: the payload's identity fields, a
hashed password credential, and the active flag at its default True.  The
confirmation field has no column, so it is discarded before persistence. -/
def mkNewUser (uid : Nat) (p : RegPayload) : User :=
  { id := uid
    username := p.username
    email := p.email
    first_name := p.first_name
    last_name := p.last_name
    passwordHash := hashPassword p.password
    is_active := true }

/-- The store-level insert behind `User.objects.create_user`: the
`auth_user.username` column is unique, so a duplicate username fails with a
store-level conflict error (spec section 4.2: "username uniqueness enforced
by the store's uniqueness constraint"); otherwise the row is inserted with
the next primary key and the `post_save` receivers fire with
`created=True`. -/
def create_user (st : PState) (p : RegPayload) (t : Nat) : Except String PState :=
  if st.users.any (fun u => u.username == p.username) then
    Except.error "UNIQUE constraint failed: auth_user.username"
  else
    let u := mkNewUser st.nextId p
    let st1 : PState := { st with users := st.users ++ [u], nextId := st.nextId + 1 }
    Except.ok (postSaveUser st1 u.id true t)

/-- Object-level `UserRegistrationSerializer.validate` (serializers.py
lines 16-19): reject when the two password fields differ. -/
def UserRegistrationSerializer.validate (p : RegPayload) : Except String RegPayload :=
  if p.password ≠ p.password_confirm then
    Except.error "Passwords don\x27t match"
  else Except.ok p

/-- Field-level `UserRegistrationSerializer.validate_email` (serializers.py
lines 21-25): reject when some existing Identity already has this email. -/
def UserRegistrationSerializer.validate_email (users : List User) (value : String) :
    Except String String :=
  if users.any (fun u => u.email == value) then
    Except.error "A user with this email already exists."
  else Except.ok value

/-- Modelled from the spec: the `auth/register` handler (views.py is not in
src/; spec sections 4.2 and 4.6) runs the registration validator and on
success persists through the store.  Field-level rules (the `password`
field's `min_length=8` and `validate_email`) run before the object-level
`validate`, which runs before `create`; `create` pops `password_confirm`
and calls `User.objects.create_user` (serializers.py lines 27-30). -/
def register (st : PState) (p : RegPayload) (t : Nat) : Except String PState :=
  if p.password.length < 8 then
    Except.error "Ensure this field has at least 8 characters."
  else
    match UserRegistrationSerializer.validate_email st.users p.email with
    | Except.error e => Except.error e
    | Except.ok _ =>
      match UserRegistrationSerializer.validate p with
      | Except.error e => Except.error e
      | Except.ok q => create_user st q t

/-- Modelled from the spec: the authentication subsystem's credential
check (`django.contrib.auth.authenticate`, external to this repository;
spec section 4.3: "credentials must resolve to an existing Identity").
It resolves the username to its Identity row and compares the password
against the stored credential, yielding the matched Identity or nothing. -/
def authenticate (users : List User) (username password : String) : Option User :=
  match users.find? (fun u => u.username == username) with
  | none => none
  | some u => if u.passwordHash == hashPassword password then some u else none

/-- `UserLoginSerializer.validate` (serializers.py lines 37-51): both
fields must be truthy (non-empty); `authenticate` failure raises "Invalid
credentials"; an inactive resolved user raises "User account is disabled";
otherwise the resolved Identity is returned. -/
def UserLoginSerializer.validate (users : List User) (username password : String) :
    Except String User :=
  if ¬username.isEmpty ∧ ¬password.isEmpty then
    match authenticate users username password with
    | none => Except.error "Invalid credentials"
    | some user =>
      if ¬user.is_active then Except.error "User account is disabled"
      else Except.ok user
  else Except.error "Must include username and password"

/-- Partial-update request for `UserProfileUpdateSerializer` (serializers.py
lines 74-86): any subset of the twelve writable fields.  `none` means the
key is absent from the request.  The Profile columns are nullable, so a
present key carries an `Option` value (a client may set a column to null);
`first_name`/`last_name` map to the non-nullable Identity columns. -/
structure ProfileUpdateRequest where
  first_name : Option String := none
  last_name : Option String := none
  phone_number : Option (Option String) := none
  date_of_birth : Option (Option String) := none
  location : Option (Option String) := none
  bio : Option (Option String) := none
  skills : Option (Option String) := none
  experience_years : Option Int := none
  linkedin_url : Option (Option String) := none
  github_url : Option (Option String) := none
  is_recruiter : Option Bool := none
  company : Option (Option String) := none
deriving DecidableEq, Repr

/-- Whether the request carries any Identity-sourced field: the serializer
declares `first_name`/`last_name` with `source='user....'`, so exactly these
end up in `validated_data['user']`, and `if user_data:` is true iff at
least one of them is present. -/
def hasUserData (r : ProfileUpdateRequest) : Bool :=
  r.first_name.isSome || r.last_name.isSome

/-- The `setattr` loop over `user_data` in
`UserProfileUpdateSerializer.update`: present Identity fields overwrite,
absent ones leave the Identity row untouched. -/
def applyUserFields (u : User) (r : ProfileUpdateRequest) : User :=
  { u with
    first_name := r.first_name.getD u.first_name
    last_name := r.last_name.getD u.last_name }

/-- The `setattr` loop over the remaining `validated_data` in
`UserProfileUpdateSerializer.update`: present Profile fields overwrite,
absent ones leave the Profile row untouched. -/
def applyProfileFields (p : UserProfile) (r : ProfileUpdateRequest) : UserProfile :=
  { p with
    phone_number := r.phone_number.getD p.phone_number
    date_of_birth := r.date_of_birth.getD p.date_of_birth
    location := r.location.getD p.location
    bio := r.bio.getD p.bio
    skills := r.skills.getD p.skills
    experience_years := r.experience_years.getD p.experience_years
    linkedin_url := r.linkedin_url.getD p.linkedin_url
    github_url := r.github_url.getD p.github_url
    is_recruiter := r.is_recruiter.getD p.is_recruiter
    company := r.company.getD p.company }

/-- `UserProfileUpdateSerializer.update` (serializers.py lines 87-100) as a
pure function on the two records it writes: pop the Identity-sourced
fields and apply them to `instance.user` (saved only when present), then
apply the remaining fields to the Profile `instance` and save it; the
Profile save stamps `updated_at` (`auto_now=True`). -/
def updateFn (u : User) (p : UserProfile) (r : ProfileUpdateRequest) (t : Nat) :
    User × UserProfile :=
  let u' := if hasUserData r then applyUserFields u r else u
  (u', { applyProfileFields p r with updated_at := t })

/-- A non-creating `User` save (e.g. `instance.user.save()`): replace the
row with the matching primary key, then fire the `post_save` receivers
with `created=False`. -/
def saveUser (st : PState) (u : User) (t : Nat) : PState :=
  postSaveUser
    { st with users := st.users.map (fun v => if v.id == u.id then u else v) }
    u.id false t

/-- Identity deletion: the Profile's `OneToOneField(User,
on_delete=CASCADE)` (models.py line 10) deletes the Profile row together
with its Identity row. -/
def deleteUser (st : PState) (uid : Nat) : PState :=
  { st with
    users := st.users.filter (fun u => !(u.id == uid))
    profiles := st.profiles.filter (fun p => !(p.user_id == uid)) }

/-- Modelled from the spec: the `PUT profile/` handler (views.py is not in
src/; spec section 4.6) fetches the authenticated user's Profile and runs
`UserProfileUpdateSerializer.update` on it: when Identity fields are
present the Identity row is saved first (firing the `post_save`
receivers), then the Profile row is written with the patched fields and a
fresh `updated_at`. -/
def updateProfileOp (st : PState) (uid : Nat) (r : ProfileUpdateRequest) (t : Nat) : PState :=
  match st.users.find? (fun u => u.id == uid), st.profiles.find? (fun p => p.user_id == uid) with
  | some u, some _ =>
    let st1 := if hasUserData r then saveUser st (applyUserFields u r) t else st
    { st1 with
      profiles := st1.profiles.map (fun q =>
        if q.user_id == uid then { applyProfileFields q r with updated_at := t } else q) }
  | _, _ => st

/-- States of the store reachable through this slice's operations, starting
from the empty store: registration, Identity saves, Identity deletion
(with cascade) and profile updates. -/
inductive Reachable : PState → Prop where
  | init : Reachable { users := [], profiles := [], nextId := 0 }
  | reg {st st' : PState} {p : RegPayload} {t : Nat} :
      Reachable st → register st p t = Except.ok st' → Reachable st'
  | save {st : PState} (u : User) (t : Nat) :
      Reachable st → Reachable (saveUser st u t)
  | del {st : PState} (uid : Nat) :
      Reachable st → Reachable (deleteUser st uid)
  | upd {st : PState} (uid : Nat) (r : ProfileUpdateRequest) (t : Nat) :
      Reachable st → Reachable (updateProfileOp st uid r t)

/-- Mapping commutes with filtering along the mapped value: filtering rows
by a predicate on a projected column and then projecting equals projecting
and then filtering the column values. -/
theorem helper_filter_map {α β : Type} (f : α → β) (q : β → Bool) (l : List α) :
    (l.filter (fun x => q (f x))).map f = (l.map f).filter q := by
  induction l with
  | nil => rfl
  | cons a l ih =>
    by_cases h : q (f a) <;> simp [List.filter_cons, h, ih]

/-- Jane's Identity row from the spec's `full_name` example, with the
incoming `" Jane "` trimmed by the store. -/
def janeUser : User :=
  { id := 1
    username := "jane"
    email := "jane@example.com"
    first_name := storeTrim " Jane "
    last_name := "Doe"
    passwordHash := hashPassword "password1"
    is_active := true }

/-- C2: for every Identity the derived `full_name` is the trimmed
concatenation of `first_name` and `last_name`; in particular, with
first_name `" Jane "` trimmed by the store and last_name `"Doe"` it equals
`"Jane Doe"` (and with an empty last name the trailing space is
trimmed away). -/
theorem full_name_is_trimmed_concat :
    (∀ u : User, full_name u = specFullName u.first_name u.last_name) ∧
    full_name janeUser = "Jane Doe" ∧
    full_name { janeUser with first_name := "Jane", last_name := "" } = "Jane" := by
  refine ⟨fun u => rfl, ?_, ?_⟩ <;> decide

theorem helper_skills_truthy (s : String) (h : pyTruthy s = false) : s = "" := by
  cases s with
  | mk data =>
    cases data with
    | nil => rfl
    | cons c cs => simp [pyTruthy, List.isEmpty] at h

/-- C4: for every stored skills value, `skills_list` is the comma-split
with each entry trimmed and empty entries dropped; in particular
`"Python, Go , ,Rust"` yields `["Python", "Go", "Rust"]`. -/
theorem skills_list_is_split_trim_drop :
    (∀ skills : Option String, skills_list skills = specSkillsList skills) ∧
    skills_list (some "Python, Go , ,Rust") = ["Python", "Go", "Rust"] := by
  constructor
  · intro skills
    cases skills with
    | none => rfl
    | some s =>
      cases h : pyTruthy s with
      | false =>
        rw [helper_skills_truthy s h]
        decide
      | true =>
        simpa [skills_list, specSkillsList, h] using
          helper_filter_map pyStrip pyTruthy (pySplit ',' s)
  · decide

/-- C1: on a login attempt with both fields supplied, a credential match
on an inactive Identity fails with "User account is disabled"; the
validator only ever returns an active Identity (so no tokens are issued
for a disabled account); "Invalid credentials" is raised exactly when the
credential match fails; and the disabled error is raised only after a
successful credential match. -/
theorem login_disabled_account (users : List User) (username password : String)
    (hu : username.isEmpty = false) (hp : password.isEmpty = false) :
    (∀ u : User, authenticate users username password = some u → u.is_active = false →
      UserLoginSerializer.validate users username password =
        Except.error "User account is disabled") ∧
    (∀ u : User, UserLoginSerializer.validate users username password = Except.ok u →
      u.is_active = true ∧ authenticate users username password = some u) ∧
    (UserLoginSerializer.validate users username password = Except.error "Invalid credentials" ↔
      authenticate users username password = none) ∧
    (UserLoginSerializer.validate users username password =
        Except.error "User account is disabled" →
      ∃ u : User, authenticate users username password = some u ∧ u.is_active = false) := by
  have hcond : ¬username.isEmpty ∧ ¬password.isEmpty := by
    simp [hu, hp]
  cases hauth : authenticate users username password with
  | none =>
    have hval : UserLoginSerializer.validate users username password =
        Except.error "Invalid credentials" := by
      rw [UserLoginSerializer.validate, if_pos hcond, hauth]
    refine ⟨?_, ?_, ?_, ?_⟩
    · intro u h
      cases h
    · intro u h
      rw [hval] at h
      cases h
    · simp [hval]
    · intro h
      rw [hval] at h
      injection h with h
      exact absurd h (by decide)
  | some u =>
    cases hact : u.is_active with
    | false =>
      have hval : UserLoginSerializer.validate users username password =
          Except.error "User account is disabled" := by
        rw [UserLoginSerializer.validate, if_pos hcond, hauth]
        simp [hact]
      refine ⟨?_, ?_, ?_, ?_⟩
      · intro u' _ _
        exact hval
      · intro u' h
        rw [hval] at h
        cases h
      · rw [hval]
        constructor
        · intro h
          injection h with h
          exact absurd h (by decide)
        · intro h
          cases h
      · intro _
        exact ⟨u, rfl, hact⟩
    | true =>
      have hval : UserLoginSerializer.validate users username password = Except.ok u := by
        rw [UserLoginSerializer.validate, if_pos hcond, hauth]
        simp [hact]
      refine ⟨?_, ?_, ?_, ?_⟩
      · intro u' h hinact
        injection h with h
        subst h
        rw [hact] at hinact
        cases hinact
      · intro u' h
        rw [hval] at h
        injection h with h
        subst h
        exact ⟨hact, rfl⟩
      · rw [hval]
        constructor
        · intro h
          cases h
        · intro h
          cases h
      · intro h
        rw [hval] at h
        cases h

/-- Disabled Identity used as concrete input: the stored credential matches
password "password1" and the active flag is false. -/
def bobDisabled : User :=
  { id := 7
    username := "bob"
    email := "bob@example.com"
    first_name := "Bob"
    last_name := "Jones"
    passwordHash := hashPassword "password1"
    is_active := false }

/-- Witness for C1: at a concrete store, correct credentials for the
disabled account produce exactly the disabled-account error. -/
theorem login_disabled_account_witness :
    UserLoginSerializer.validate [bobDisabled] "bob" "password1" =
      Except.error "User account is disabled" :=
  (login_disabled_account [bobDisabled] "bob" "password1" (by decide) (by decide)).1
    bobDisabled (by decide) (by decide)

/-- C3: whenever the two password fields differ, the object-level
registration validator fails with exactly "Passwords don't match", and the
registration pipeline returns an error for every store state, so no
Identity is persisted (the caller's state is unchanged on error). -/
theorem registration_password_mismatch (p : RegPayload)
    (hne : p.password ≠ p.password_confirm) :
    UserRegistrationSerializer.validate p = Except.error "Passwords don\x27t match" ∧
    ∀ (st : PState) (t : Nat), ∃ e, register st p t = Except.error e := by
  have hval : UserRegistrationSerializer.validate p =
      Except.error "Passwords don\x27t match" := by
    rw [UserRegistrationSerializer.validate, if_pos hne]
  refine ⟨hval, ?_⟩
  intro st t
  rw [register]
  by_cases hlen : p.password.length < 8
  · exact ⟨_, if_pos hlen⟩
  · rw [if_neg hlen]
    cases hve : UserRegistrationSerializer.validate_email st.users p.email with
    | error e => exact ⟨e, rfl⟩
    | ok v => rw [hval]; exact ⟨_, rfl⟩

/-- Mismatching concrete registration payload. -/
def mismatchPayload : RegPayload :=
  { username := "carol"
    email := "carol@example.com"
    first_name := "Carol"
    last_name := "Smith"
    password := "password1"
    password_confirm := "password2" }

/-- Witness for C3: the concrete mismatching payload fails with exactly
"Passwords don't match". -/
theorem registration_password_mismatch_witness :
    UserRegistrationSerializer.validate mismatchPayload =
      Except.error "Passwords don\x27t match" :=
  (registration_password_mismatch mismatchPayload (by decide)).1

/-- C8: whenever some existing Identity already holds the payload's email,
the field-level email validator fails with exactly "A user with this email
already exists.", and the registration pipeline returns an error, so no
new Identity is created. -/
theorem registration_duplicate_email (st : PState) (p : RegPayload) (t : Nat)
    (hdup : ∃ u ∈ st.users, u.email = p.email) :
    UserRegistrationSerializer.validate_email st.users p.email =
      Except.error "A user with this email already exists." ∧
    ∃ e, register st p t = Except.error e := by
  have hany : st.users.any (fun u => u.email == p.email) = true := by
    rcases hdup with ⟨u, hu, he⟩
    exact List.any_eq_true.mpr ⟨u, hu, by simp [he]⟩
  have hval : UserRegistrationSerializer.validate_email st.users p.email =
      Except.error "A user with this email already exists." := by
    rw [UserRegistrationSerializer.validate_email, if_pos hany]
  refine ⟨hval, ?_⟩
  rw [register]
  by_cases hlen : p.password.length < 8
  · exact ⟨_, if_pos hlen⟩
  · rw [if_neg hlen, hval]
    exact ⟨_, rfl⟩

/-- Witness for C8: registering the disabled demo user's email again fails
with exactly the duplicate-email error. -/
theorem registration_duplicate_email_witness :
    UserRegistrationSerializer.validate_email [bobDisabled] "bob@example.com" =
      Except.error "A user with this email already exists." :=
  (registration_duplicate_email
      { users := [bobDisabled], profiles := [defaultProfileFor 7 0], nextId := 8 }
      { mismatchPayload with email := "bob@example.com" } 0
      ⟨bobDisabled, by decide, by decide⟩).1

/-- Existing Profile row used as concrete input for the partial-update
claims: `company` is "A", everything else at its default. -/
def profileWithCompanyA : UserProfile :=
  { defaultProfileFor 7 1 with company := some "A" }

/-- Request that only carries `bio := "hi"`. -/
def bioOnlyRequest : ProfileUpdateRequest :=
  { bio := some (some "hi") }

/-- C5: for every update request and every updatable field, an absent key
leaves the stored value unchanged and a present key overwrites it; in
particular, updating only `bio` on a profile whose `company` is "A"
leaves `company` equal to "A" and sets `bio` to "hi". -/
theorem update_patches_by_key_presence :
    (∀ (u : User) (p : UserProfile) (r : ProfileUpdateRequest) (t : Nat),
      (updateFn u p r t).1.first_name = r.first_name.getD u.first_name ∧
      (updateFn u p r t).1.last_name = r.last_name.getD u.last_name ∧
      (updateFn u p r t).2.phone_number = r.phone_number.getD p.phone_number ∧
      (updateFn u p r t).2.date_of_birth = r.date_of_birth.getD p.date_of_birth ∧
      (updateFn u p r t).2.location = r.location.getD p.location ∧
      (updateFn u p r t).2.bio = r.bio.getD p.bio ∧
      (updateFn u p r t).2.skills = r.skills.getD p.skills ∧
      (updateFn u p r t).2.experience_years = r.experience_years.getD p.experience_years ∧
      (updateFn u p r t).2.linkedin_url = r.linkedin_url.getD p.linkedin_url ∧
      (updateFn u p r t).2.github_url = r.github_url.getD p.github_url ∧
      (updateFn u p r t).2.is_recruiter = r.is_recruiter.getD p.is_recruiter ∧
      (updateFn u p r t).2.company = r.company.getD p.company ∧
      (updateFn u p r t).2.user_id = p.user_id) ∧
    ((updateFn bobDisabled profileWithCompanyA bioOnlyRequest 9).2.company = some "A" ∧
     (updateFn bobDisabled profileWithCompanyA bioOnlyRequest 9).2.bio = some "hi") := by
  constructor
  · intro u p r t
    cases hf : r.first_name <;> cases hl : r.last_name <;>
      simp [updateFn, hasUserData, applyUserFields, applyProfileFields, hf, hl]
  · constructor <;> decide

/-- C6: the update serializer routes `first_name`/`last_name` (when
present) onto the Identity record and every other updatable field onto the
Profile record — the Identity row is exactly the old row with the two
name fields patched, and the Profile row is exactly the old row with the
ten profile fields patched and a fresh `updated_at`, each patched value
being the request value when the key is present. -/
theorem update_routes_identity_and_profile_fields :
    ∀ (u : User) (p : UserProfile) (r : ProfileUpdateRequest) (t : Nat),
      (updateFn u p r t).1 =
        { u with
          first_name := r.first_name.getD u.first_name
          last_name := r.last_name.getD u.last_name } ∧
      (updateFn u p r t).2 =
        { p with
          phone_number := r.phone_number.getD p.phone_number
          date_of_birth := r.date_of_birth.getD p.date_of_birth
          location := r.location.getD p.location
          bio := r.bio.getD p.bio
          skills := r.skills.getD p.skills
          experience_years := r.experience_years.getD p.experience_years
          linkedin_url := r.linkedin_url.getD p.linkedin_url
          github_url := r.github_url.getD p.github_url
          is_recruiter := r.is_recruiter.getD p.is_recruiter
          company := r.company.getD p.company
          updated_at := t } := by
  intro u p r t
  constructor
  · cases hf : r.first_name <;> cases hl : r.last_name <;>
      simp [updateFn, hasUserData, applyUserFields, hf, hl]
  · rfl

/-- C10: a non-creating save of an Identity row fires the `post_save`
receivers, and `save_user_profile` saves the associated Profile row, so
its `updated_at` is stamped with the save time even though no Profile
field was changed; no Profile row is created (other users' rows are
untouched and the user table keeps its length). -/
theorem identity_save_refreshes_profile (st : PState) (u : User) (t : Nat)
    (p : UserProfile) (hmem : p ∈ st.profiles) (hid : p.user_id = u.id) :
    { p with updated_at := t } ∈ (saveUser st u t).profiles ∧
    (saveUser st u t).users.length = st.users.length ∧
    (saveUser st u t).profiles.length = st.profiles.length ∧
    ∀ q ∈ st.profiles, q.user_id ≠ u.id → q ∈ (saveUser st u t).profiles := by
  refine ⟨?_, ?_, ?_, ?_⟩
  · simp only [saveUser, postSaveUser, create_user_profile, save_user_profile,
      if_neg Bool.false_ne_true, List.mem_map]
    exact ⟨p, hmem, by simp [hid]⟩
  · simp [saveUser, postSaveUser, create_user_profile, save_user_profile]
  · simp [saveUser, postSaveUser, create_user_profile, save_user_profile]
  · intro q hq hne
    simp only [saveUser, postSaveUser, create_user_profile, save_user_profile,
      if_neg Bool.false_ne_true, List.mem_map]
    exact ⟨q, hq, by simp [hne]⟩

/-- Witness for C10: saving the disabled demo user at time 9 stamps its
Profile row's `updated_at` with 9. -/
theorem identity_save_refreshes_profile_witness :
    { defaultProfileFor 7 1 with updated_at := 9 } ∈
      (saveUser { users := [bobDisabled], profiles := [defaultProfileFor 7 1], nextId := 8 }
        bobDisabled 9).profiles :=
  (identity_save_refreshes_profile
      { users := [bobDisabled], profiles := [defaultProfileFor 7 1], nextId := 8 }
      bobDisabled 9 (defaultProfileFor 7 1) (by decide) (by decide)).1

/-- Store state holding one active Identity named "bob". -/
def stWithBob : PState :=
  { users := [{ bobDisabled with is_active := true }]
    profiles := [defaultProfileFor 7 0]
    nextId := 8 }

/-- Payload with matching long passwords and a fresh email, but the
already-taken username "bob". -/
def dupUsernamePayload : RegPayload :=
  { username := "bob"
    email := "fresh@example.com"
    first_name := "Robert"
    last_name := "New"
    password := "password1"
    password_confirm := "password1" }

/-- Counterexample to C9 as stated: this payload has matching passwords of
length ≥ 8 and an email used by no existing Identity, yet registration
does not succeed — the store's username uniqueness constraint rejects
it. -/
theorem registration_not_always_successful :
    dupUsernamePayload.password = dupUsernamePayload.password_confirm ∧
    8 ≤ dupUsernamePayload.password.length ∧
    (∀ u ∈ stWithBob.users, u.email ≠ dupUsernamePayload.email) ∧
    register stWithBob dupUsernamePayload 1 =
      Except.error "UNIQUE constraint failed: auth_user.username" := by
  refine ⟨by decide, by decide, by decide, rfl⟩

/-- C9 (amended with a fresh username): for every payload with matching
passwords of length ≥ 8, an email used by no existing Identity and a
username used by no existing Identity, registration succeeds: the new
Identity row is appended carrying a hashed password credential and only
the payload's non-confirmation fields (`password_confirm` is discarded:
payloads agreeing on everything else yield the same row), and a Profile
is auto-created for it with every optional field at its default. -/
theorem registration_success (st : PState) (p : RegPayload) (t : Nat)
    (hpw : p.password = p.password_confirm) (hlen : 8 ≤ p.password.length)
    (hemail : ∀ u ∈ st.users, u.email ≠ p.email)
    (husername : ∀ u ∈ st.users, u.username ≠ p.username) :
    ∃ st', register st p t = Except.ok st' ∧
      st'.users = st.users ++ [mkNewUser st.nextId p] ∧
      (mkNewUser st.nextId p).passwordHash = hashPassword p.password ∧
      (∀ q : RegPayload, q.username = p.username → q.email = p.email →
        q.first_name = p.first_name → q.last_name = p.last_name →
        q.password = p.password → mkNewUser st.nextId q = mkNewUser st.nextId p) ∧
      defaultProfileFor st.nextId t ∈ st'.profiles ∧
      (defaultProfileFor st.nextId t).experience_years = 0 ∧
      (defaultProfileFor st.nextId t).is_recruiter = false ∧
      (defaultProfileFor st.nextId t).phone_number = none ∧
      (defaultProfileFor st.nextId t).date_of_birth = none ∧
      (defaultProfileFor st.nextId t).location = none ∧
      (defaultProfileFor st.nextId t).bio = none ∧
      (defaultProfileFor st.nextId t).skills = none ∧
      (defaultProfileFor st.nextId t).linkedin_url = none ∧
      (defaultProfileFor st.nextId t).github_url = none ∧
      (defaultProfileFor st.nextId t).resume = none ∧
      (defaultProfileFor st.nextId t).profile_picture = none ∧
      (defaultProfileFor st.nextId t).company = none := by
  have hltf : ¬p.password.length < 8 := by omega
  have hanyE : st.users.any (fun u => u.email == p.email) = false := by
    rw [List.any_eq_false]
    intro u hu
    simpa using hemail u hu
  have hanyU : st.users.any (fun u => u.username == p.username) = false := by
    rw [List.any_eq_false]
    intro u hu
    simpa using husername u hu
  have hok : register st p t = create_user st p t := by
    rw [register, if_neg hltf, UserRegistrationSerializer.validate_email,
      if_neg (by simp [hanyE]), UserRegistrationSerializer.validate,
      if_neg (by simp [hpw])]
  have hcreate : create_user st p t =
      Except.ok (postSaveUser
        { st with users := st.users ++ [mkNewUser st.nextId p], nextId := st.nextId + 1 }
        st.nextId true t) := by
    rw [create_user, if_neg (by simp [hanyU])]
    rfl
  refine ⟨_, hok.trans hcreate, rfl, rfl, ?_, ?_, rfl, rfl, rfl, rfl, rfl, rfl, rfl, rfl,
    rfl, rfl, rfl, rfl⟩
  · intro q h1 h2 h3 h4 h5
    simp [mkNewUser, h1, h2, h3, h4, h5]
  · simp only [postSaveUser, create_user_profile, if_pos rfl, save_user_profile,
      List.mem_map]
    refine ⟨defaultProfileFor st.nextId t, ?_, by simp [defaultProfileFor]⟩
    exact List.mem_append_right _ (List.mem_singleton_self _)

/-- The empty store. -/
def emptyState : PState :=
  { users := [], profiles := [], nextId := 0 }

/-- Valid registration payload: matching passwords of length 9. -/
def freshPayload : RegPayload :=
  { mismatchPayload with password_confirm := "password1" }

/-- Witness for C9 (amended): registering the valid payload against the
empty store succeeds, appends the hashed-credential Identity row, and
auto-creates its all-default Profile. -/
theorem registration_success_witness :
    ∃ st', register emptyState freshPayload 3 = Except.ok st' ∧
      st'.users = [] ++ [mkNewUser 0 freshPayload] ∧
      (mkNewUser 0 freshPayload).passwordHash = hashPassword freshPayload.password ∧
      (∀ q : RegPayload, q.username = freshPayload.username → q.email = freshPayload.email →
        q.first_name = freshPayload.first_name → q.last_name = freshPayload.last_name →
        q.password = freshPayload.password → mkNewUser 0 q = mkNewUser 0 freshPayload) ∧
      defaultProfileFor 0 3 ∈ st'.profiles ∧
      (defaultProfileFor 0 3).experience_years = 0 ∧
      (defaultProfileFor 0 3).is_recruiter = false ∧
      (defaultProfileFor 0 3).phone_number = none ∧
      (defaultProfileFor 0 3).date_of_birth = none ∧
      (defaultProfileFor 0 3).location = none ∧
      (defaultProfileFor 0 3).bio = none ∧
      (defaultProfileFor 0 3).skills = none ∧
      (defaultProfileFor 0 3).linkedin_url = none ∧
      (defaultProfileFor 0 3).github_url = none ∧
      (defaultProfileFor 0 3).resume = none ∧
      (defaultProfileFor 0 3).profile_picture = none ∧
      (defaultProfileFor 0 3).company = none :=
  registration_success emptyState freshPayload 3 rfl (by decide)
    (by intro u hu; cases hu) (by intro u hu; cases hu)

/-- Store invariant strengthening C7 for the induction: Identity primary
keys are distinct and below the auto-increment counter, and the Profile
table's foreign-key column lists exactly the Identity keys, in order. -/
def StoreInv (st : PState) : Prop :=
  (st.users.map (fun u => u.id)).Nodup ∧
  (∀ u ∈ st.users, u.id < st.nextId) ∧
  st.profiles.map (fun p => p.user_id) = st.users.map (fun u => u.id)

/-- Rewriting every Profile row without touching its foreign key preserves
the invariant. -/
theorem helper_inv_map_profiles (st : PState) (f : UserProfile → UserProfile)
    (hf : ∀ p, (f p).user_id = p.user_id) (h : StoreInv st) :
    StoreInv { st with profiles := st.profiles.map f } := by
  obtain ⟨h1, h2, h3⟩ := h
  refine ⟨h1, h2, ?_⟩
  have : (st.profiles.map f).map (fun p => p.user_id) =
      st.profiles.map (fun p => p.user_id) := by
    rw [List.map_map]
    exact congrArg (fun φ => List.map φ st.profiles) (funext hf)
  rw [this]
  exact h3

/-- Rewriting every Identity row without touching its primary key
preserves the invariant. -/
theorem helper_inv_map_users (st : PState) (g : User → User)
    (hg : ∀ u, (g u).id = u.id) (h : StoreInv st) :
    StoreInv { st with users := st.users.map g } := by
  obtain ⟨h1, h2, h3⟩ := h
  have hmap : (st.users.map g).map (fun u => u.id) = st.users.map (fun u => u.id) := by
    rw [List.map_map]
    exact congrArg (fun φ => List.map φ st.users) (funext hg)
  refine ⟨hmap ▸ h1, ?_, h3.trans hmap.symm⟩
  intro u hu
  obtain ⟨v, hv, rfl⟩ := List.mem_map.mp hu
  rw [hg v]
  exact h2 v hv

/-- The `post_save` receivers of a non-creating Identity save preserve the
invariant. -/
theorem helper_inv_postSaveFalse (st : PState) (uid t : Nat) (h : StoreInv st) :
    StoreInv (postSaveUser st uid false t) :=
  helper_inv_map_profiles st _ (fun p => by split <;> rfl) h

/-- A non-creating Identity save preserves the invariant. -/
theorem helper_inv_saveUser (st : PState) (u : User) (t : Nat) (h : StoreInv st) :
    StoreInv (saveUser st u t) := by
  refine helper_inv_postSaveFalse _ _ _ (helper_inv_map_users st _ ?_ h)
  intro v
  by_cases hv : v.id == u.id
  · have : v.id = u.id := by simpa using hv
    simp [hv, this]
  · simp [hv]

/-- Cascade deletion of an Identity preserves the invariant. -/
theorem helper_inv_delete (st : PState) (uid : Nat) (h : StoreInv st) :
    StoreInv (deleteUser st uid) := by
  obtain ⟨h1, h2, h3⟩ := h
  refine ⟨?_, ?_, ?_⟩
  · rw [show (deleteUser st uid).users = st.users.filter (fun u => !(u.id == uid)) from rfl,
      helper_filter_map (fun u : User => u.id) (fun n => !(n == uid)) st.users]
    exact h1.filter _
  · intro u hu
    exact h2 u (List.mem_of_mem_filter hu)
  · rw [show (deleteUser st uid).users = st.users.filter (fun u => !(u.id == uid)) from rfl,
      show (deleteUser st uid).profiles =
        st.profiles.filter (fun p => !(p.user_id == uid)) from rfl,
      helper_filter_map (fun p : UserProfile => p.user_id) (fun n => !(n == uid)) st.profiles,
      helper_filter_map (fun u : User => u.id) (fun n => !(n == uid)) st.users, h3]

/-- A successful store-level Identity insert preserves the invariant. -/
theorem helper_inv_create (st : PState) (p : RegPayload) (t : Nat) (st' : PState)
    (hc : create_user st p t = Except.ok st') (h : StoreInv st) : StoreInv st' := by
  rw [create_user] at hc
  by_cases hany : st.users.any (fun u => u.username == p.username)
  · rw [if_pos hany] at hc
    cases hc
  · rw [if_neg hany] at hc
    injection hc with hc
    subst hc
    obtain ⟨h1, h2, h3⟩ := h
    have hstep : StoreInv
        { users := st.users ++ [mkNewUser st.nextId p]
          profiles := st.profiles ++ [defaultProfileFor st.nextId t]
          nextId := st.nextId + 1 } := by
      refine ⟨?_, ?_, ?_⟩
      · rw [List.map_append]
        refine List.Nodup.append h1 (List.nodup_singleton _) ?_
        intro a ha hb
        obtain ⟨u, hu, rfl⟩ := List.mem_map.mp ha
        have hlt := h2 u hu
        have : u.id = st.nextId := by simpa [mkNewUser] using hb
        omega
      · intro u hu
        rcases List.mem_append.mp hu with hu' | hu'
        · exact Nat.lt_succ_of_lt (h2 u hu')
        · have : u = mkNewUser st.nextId p := by simpa using hu'
          subst this
          simp [mkNewUser]
      · rw [List.map_append, List.map_append, h3]
        rfl
    exact helper_inv_map_profiles _ _ (fun q => by split <;> rfl) hstep

/-- A successful run of the registration pipeline preserves the
invariant. -/
theorem helper_inv_register (st : PState) (p : RegPayload) (t : Nat) (st' : PState)
    (hr : register st p t = Except.ok st') (h : StoreInv st) : StoreInv st' := by
  rw [register] at hr
  by_cases hlen : p.password.length < 8
  · rw [if_pos hlen] at hr
    cases hr
  · rw [if_neg hlen] at hr
    cases hve : UserRegistrationSerializer.validate_email st.users p.email with
    | error e =>
      rw [hve] at hr
      cases hr
    | ok v =>
      rw [hve] at hr
      cases hvv : UserRegistrationSerializer.validate p with
      | error e =>
        rw [hvv] at hr
        cases hr
      | ok q =>
        rw [hvv] at hr
        have hq : q = p := by
          rw [UserRegistrationSerializer.validate] at hvv
          by_cases hx : p.password ≠ p.password_confirm
          · rw [if_pos hx] at hvv
            cases hvv
          · rw [if_neg hx] at hvv
            injection hvv with hvv
            exact hvv.symm
        subst hq
        exact helper_inv_create st q t st' hr h

/-- The profile-update handler preserves the invariant. -/
theorem helper_inv_update (st : PState) (uid : Nat) (r : ProfileUpdateRequest) (t : Nat)
    (h : StoreInv st) : StoreInv (updateProfileOp st uid r t) := by
  rw [updateProfileOp]
  cases hfu : st.users.find? (fun u => u.id == uid) with
  | none => exact h
  | some u =>
    cases hfp : st.profiles.find? (fun q => q.user_id == uid) with
    | none => exact h
    | some q0 =>
      have hst1 : StoreInv (if hasUserData r then saveUser st (applyUserFields u r) t else st) := by
        by_cases hd : hasUserData r
        · rw [if_pos hd]
          exact helper_inv_saveUser st _ t h
        · rw [if_neg hd]
          exact h
      exact helper_inv_map_profiles _ _ (fun q => by split <;> rfl) hst1

/-- Every reachable state satisfies the invariant. -/
theorem helper_inv_reachable {st : PState} (h : Reachable st) : StoreInv st := by
  induction h with
  | init => exact ⟨List.nodup_nil, fun u hu => absurd hu (List.not_mem_nil u), rfl⟩
  | reg hre hr ih => exact helper_inv_register _ _ _ _ hr ih
  | save u t hre ih => exact helper_inv_saveUser _ u t ih
  | del uid hre ih => exact helper_inv_delete _ uid ih
  | upd uid r t hre ih => exact helper_inv_update _ uid r t ih

/-- In a duplicate-free list containing `a`, exactly one entry equals
`a`. -/
theorem helper_nodup_filter_eq_one (l : List Nat) (a : Nat) (hnd : l.Nodup) (ha : a ∈ l) :
    (l.filter (fun n => n == a)).length = 1 := by
  induction l with
  | nil => cases ha
  | cons b l ih =>
    rw [List.nodup_cons] at hnd
    rcases List.mem_cons.mp ha with h | h
    · subst h
      have hnil : l.filter (fun n => n == a) = [] := by
        rw [List.filter_eq_nil_iff]
        intro x hx
        simp only [beq_iff_eq]
        rintro rfl
        exact hnd.1 hx
      simp [List.filter_cons, hnil]
    · have hba : ¬b = a := by
        rintro rfl
        exact hnd.1 h
      rw [List.filter_cons, if_neg (by simp [hba])]
      exact ih hnd.2 h

/-- C7: in every reachable store state there is exactly one Profile row
per Identity (the automatic creation hook is the only thing that ever
creates one), every Profile row belongs to an existing Identity, and
deleting an Identity removes its Profile rows (cascade). -/
theorem one_profile_per_identity (st : PState) (h : Reachable st) :
    (∀ u ∈ st.users, (st.profiles.filter (fun p => p.user_id == u.id)).length = 1) ∧
    (∀ p ∈ st.profiles, ∃ u ∈ st.users, u.id = p.user_id) ∧
    (∀ uid : Nat, ∀ p ∈ (deleteUser st uid).profiles, ¬p.user_id = uid) := by
  obtain ⟨h1, h2, h3⟩ := helper_inv_reachable h
  refine ⟨?_, ?_, ?_⟩
  · intro u hu
    have hlen := congrArg List.length
      (helper_filter_map (fun p : UserProfile => p.user_id) (fun n => n == u.id) st.profiles)
    rw [List.length_map] at hlen
    rw [hlen, h3]
    exact helper_nodup_filter_eq_one _ _ h1 (List.mem_map_of_mem _ hu)
  · intro p hp
    have hmem : p.user_id ∈ st.profiles.map (fun p => p.user_id) :=
      List.mem_map_of_mem _ hp
    rw [h3] at hmem
    obtain ⟨u, hu, he⟩ := List.mem_map.mp hmem
    exact ⟨u, hu, he⟩
  · intro uid p hp
    have hfil := List.of_mem_filter hp
    simpa using hfil

/-- Store state reached by one successful registration from the empty
store. -/
def demoState : PState :=
  { users := [mkNewUser 0 freshPayload]
    profiles := [defaultProfileFor 0 3]
    nextId := 1 }

/-- Witness for C7: in the concrete reachable state after one
registration, the new Identity has exactly one Profile row. -/
theorem one_profile_per_identity_witness :
    (demoState.profiles.filter (fun p => p.user_id == (mkNewUser 0 freshPayload).id)).length
      = 1 :=
  (one_profile_per_identity demoState
      (Reachable.reg Reachable.init
        (show register emptyState freshPayload 3 = Except.ok demoState from rfl))).1
    (mkNewUser 0 freshPayload) (by decide)
